import Mathlib

/-!
Verification of the warehouse-order-picker widget in
`static/js/ui-utils.js` (the IIFE installing `window.WarehouseOrderPicker`).

The embedding is shallow and executable:

* JS strings are `String`, JS numbers occurring in this widget are `Int`
  (all arithmetic here is `parseInt`-based), absent/`undefined`/`null`
  JSON fields are `Option`.
* The global prefetch cache (`prefetchCache`, `prefetchPromise`) is a
  `PrefetchState` record; promises are identified by ghost numeric ids.
* Each search-row's DOM fields (`.product-id`, `.qty`, `dataset.maxQty`,
  the suggestion box, `dataset.remoteRequestId`, the pending debounce
  timer) are records; `Date.now()` timestamps are `Nat` milliseconds.
* The event-loop behaviour of one search input is a step function over
  events (text change, debounce-timer firing, network completion).
  Environment guarantees of the JS runtime (clock monotone, a timer
  fires only if it was not cleared and only after its delay, responses
  arrive only for issued requests) are captured by `validEvent`.
-/

namespace SmartLiving

/-- JS truthiness-based defaulting `x || d` for optional strings: `null`,
`undefined` and `""` are falsy and fall through to the default. -/
def jsOr (o : Option String) (dflt : String) : String :=
  match o with
  | some s => if s = "" then dflt else s
  | none => dflt

/-- JS `String.prototype.toLowerCase` restricted to the ASCII range
(kernel-computable model of the code's `toLowerCase()`). -/
def strLower (s : String) : String :=
  String.mk (s.toList.map Char.toLower)

/-- JS `String.prototype.trim`: strip whitespace from both ends
(kernel-computable model of the code's `.trim()`). -/
def strTrim (s : String) : String :=
  String.mk (((s.toList.dropWhile Char.isWhitespace).reverse.dropWhile
    Char.isWhitespace).reverse)

/-- `nee` is a prefix of `hay` (character lists). -/
def charsLead : List Char → List Char → Bool
  | [], _ => true
  | _ :: _, [] => false
  | a :: as, b :: bs => a == b && charsLead as bs

/-- `nee` occurs as a contiguous run somewhere in `hay`; model of
JS `String.prototype.includes`. -/
def charsOccur (nee : List Char) : List Char → Bool
  | [] => charsLead nee []
  | b :: bs => charsLead nee (b :: bs) || charsOccur nee bs

/-- `hay.includes(nee)` of JS. -/
def strIncludes (hay nee : String) : Bool :=
  charsOccur nee.toList hay.toList

/-- Longest leading run of decimal digits. -/
def leadingDigits (cs : List Char) : List Char :=
  cs.takeWhile Char.isDigit

/-- Decimal value of a digit list. -/
def digitsToNat (cs : List Char) : Nat :=
  cs.foldl (fun acc c => acc * 10 + (c.toNat - 48)) 0

/-- Model of JS `parseInt(s, 10)`: skip leading whitespace, optional
sign, then the longest leading digit run; `none` models `NaN` (no
digits).  Trailing garbage is ignored, as in JS. -/
def parseIntJS (s : String) : Option Int :=
  match s.toList.dropWhile Char.isWhitespace with
  | '-' :: rest =>
    match leadingDigits rest with
    | [] => none
    | ds => some (-(digitsToNat ds : Int))
  | '+' :: rest =>
    match leadingDigits rest with
    | [] => none
    | ds => some ((digitsToNat ds : Int))
  | rest =>
    match leadingDigits rest with
    | [] => none
    | ds => some ((digitsToNat ds : Int))

/-- Model of `parseInt(s || "0", 10) || 0`: empty string parses as `0`,
`NaN` collapses to `0` (and so does `-0`). -/
def toIntOr0 (s : String) : Int :=
  (parseIntJS s).getD 0

/-- A product as returned by the backend (`results` entries). Fields
that may be absent in the JSON are `Option`. `id` is the JS `_id`. -/
structure Product where
  id : Option String
  name : Option String
  sku : Option String
  tag : Option String
  qty_available : Option Int
  image_url : Option String
deriving Repr, DecidableEq

-- const API_SEARCH = "/manager/orders/products";
def API_SEARCH : String := "/manager/orders/products"

-- const API_PREFETCH = "/manager/orders/products_prefetch";
def API_PREFETCH : String := "/manager/orders/products_prefetch"

-- const PREFETCH_LIMIT = 300;
def PREFETCH_LIMIT : Nat := 300

-- const DISPLAY_LIMIT = 30;
def DISPLAY_LIMIT : Nat := 30

/-- `formatMetaText(product)`: joins the available-quantity line
(pushed whenever `qty_available !== undefined && !== null`, even for 0),
the tag (truthiness check) and the SKU (truthiness check) with a dot. -/
def formatMetaText (p : Product) : String :=
  String.intercalate (" · ")
    ((match p.qty_available with
      | some q => ["Available: " ++ toString q]
      | none => []) ++
     (match p.tag with
      | some t => if t = "" then [] else [t]
      | none => []) ++
     (match p.sku with
      | some sk => if sk = "" then [] else ["SKU: " ++ sk]
      | none => []))

/-- The lowercased space-joined haystack built by `filterLocalProducts`:
`[name || "", sku || "", tag || ""].map(v => v.toLowerCase()).join(" ")`. -/
def combinedText (p : Product) : String :=
  strLower (jsOr p.name ("")) ++ " " ++ strLower (jsOr p.sku ("")) ++ " " ++
    strLower (jsOr p.tag (""))

/-- The `for ... of` loop of `filterLocalProducts`: collect matching
products in cache order, breaking once `matches.length >= DISPLAY_LIMIT`
(`fuel` is the number of slots still free; the loop starts with
`DISPLAY_LIMIT`). -/
def scanMatches (needle : String) : List Product → Nat → List Product
  | [], _ => []
  | p :: ps, fuel =>
    if strIncludes (combinedText p) needle then
      if fuel ≤ 1 then [p] else p :: scanMatches needle ps (fuel - 1)
    else scanMatches needle ps fuel

/-- `filterLocalProducts(query)` reading the given cache:
empty cache short-circuits to `[]`; falsy (empty) query returns
`prefetchCache.slice(0, DISPLAY_LIMIT)`; otherwise the scan above with
`needle = query.toLowerCase()`. -/
def filterLocalProducts (cache : List Product) (query : String) : List Product :=
  if cache.isEmpty then []
  else if query = "" then cache.take DISPLAY_LIMIT
  else scanMatches (strLower query) cache DISPLAY_LIMIT

/-- The resolution of the prefetch request body: `success` is a 2xx
response whose JSON parsed (`json?.results`, absent modelled as `none`);
`httpError` is `!res.ok` (the code then throws into its own `catch`);
`netError` is a rejected `fetch` or a body/JSON failure. -/
inductive PrefetchOutcome where
  | success : Option (List Product) → PrefetchOutcome
  | httpError : Nat → PrefetchOutcome
  | netError : PrefetchOutcome
deriving Repr, DecidableEq

/-- The module-level mutable prefetch state: `let prefetchCache = []`
and `let prefetchPromise = null`, plus ghost bookkeeping: `requests`
records every URL actually passed to `fetch`, `nextPromiseId` numbers
the promises created. -/
structure PrefetchState where
  prefetchPromise : Option Nat
  prefetchCache : List Product
  requests : List String
  nextPromiseId : Nat
deriving Repr, DecidableEq

/-- Initial module state. -/
def initPrefetch : PrefetchState :=
  { prefetchPromise := none, prefetchCache := [], requests := [], nextPromiseId := 0 }

/-- The URL fetched by `loadPrefetch`. -/
def prefetchUrl : String :=
  API_PREFETCH ++ "?limit=" ++ toString PREFETCH_LIMIT

/-- `loadPrefetch()` up to its suspension point: if `prefetchPromise`
is non-null it is returned unchanged (no fetch); otherwise a new
promise is created and stored and one `fetch(url)` is issued.  The
returned `Nat` is the promise handed back to the caller.  Note the
promise is *never* reset to null afterwards. -/
def loadPrefetch (s : PrefetchState) : PrefetchState × Nat :=
  match s.prefetchPromise with
  | some p => (s, p)
  | none =>
    ({ s with
       prefetchPromise := some (s.nextPromiseId),
       requests := s.requests ++ [prefetchUrl],
       nextPromiseId := s.nextPromiseId + 1 }, s.nextPromiseId)

/-- The rest of the `loadPrefetch` body once the network settles:
on success `prefetchCache = (json?.results || []).slice()`; every
failure is swallowed by the `catch`, which sets `prefetchCache = []`.
`prefetchPromise` is left as-is in every case. -/
def settlePrefetch (s : PrefetchState) (o : PrefetchOutcome) : PrefetchState :=
  match o with
  | PrefetchOutcome.success res => { s with prefetchCache := res.getD [] }
  | PrefetchOutcome.httpError _ => { s with prefetchCache := [] }
  | PrefetchOutcome.netError => { s with prefetchCache := [] }

/-- `n` consecutive calls of `loadPrefetch()` (callers discard nothing
in between; the JS event loop serialises them). -/
def runLoads (s : PrefetchState) : Nat → PrefetchState
  | 0 => s
  | n + 1 => runLoads (loadPrefetch s).1 n

/-- The promises returned by `n` consecutive `loadPrefetch()` calls. -/
def loadResults (s : PrefetchState) : Nat → List Nat
  | 0 => []
  | n + 1 => (loadPrefetch s).2 :: loadResults (loadPrefetch s).1 n

/-- The per-row DOM fields touched by the widget.  String fields hold
the raw `.value`; `maxQtyData`/`maxAttr` model `qty.dataset.maxQty` and
the `max` attribute, with `none` for `""`/removed (the code only ever
stores canonical integer strings there). -/
structure RowForm where
  searchText : String
  productId : String
  metaText : String
  productTag : Option String
  qtyValue : String
  maxQtyData : Option Int
  maxAttr : Option Int
  availabilityText : String
  availabilityHidden : Bool
  expectedDate : String
  notes : String
deriving Repr, DecidableEq

/-- A freshly created row (`createRow` template): qty input value "1",
everything else empty/absent, availability message hidden. -/
def initRow : RowForm :=
  { searchText := "", productId := "", metaText := "", productTag := none,
    qtyValue := "1", maxQtyData := none, maxAttr := none,
    availabilityText := "", availabilityHidden := true,
    expectedDate := "", notes := "" }

/-- `selectProduct(row, product)`. `maxQty = product.qty_available || 0`
(truthiness: 0 and absent both give 0); a non-zero bound is stored in
`dataset.maxQty` and the `max` attribute and the qty value is bumped to
1 when empty or parsing below 1 (JS `parseInt` NaN fails the `< 1`
test, so unparsable non-empty values survive); a zero bound clears
both. -/
def selectProduct (row : RowForm) (p : Product) : RowForm :=
  let maxQty : Int :=
    match p.qty_available with
    | some q => q
    | none => 0
  let base : RowForm :=
    { row with
      productId := jsOr p.id (""),
      searchText := jsOr p.name (""),
      metaText := formatMetaText p,
      productTag := some (jsOr p.tag ("Warehouse")),
      availabilityHidden := true }
  if maxQty = 0 then
    { base with maxQtyData := none, maxAttr := none }
  else
    { base with
      maxQtyData := some maxQty, maxAttr := some maxQty,
      qtyValue :=
        if row.qtyValue = "" then "1"
        else
          match parseIntJS row.qtyValue with
          | some n => if n < 1 then "1" else row.qtyValue
          | none => row.qtyValue }

/-- `parseInt(dataset.maxQty || "0", 10) || 0` for our canonical
`Option Int` encoding of the dataset slot. -/
def dataIntOr0 (o : Option Int) : Int :=
  match o with
  | some n => n
  | none => 0

/-- `updateAvailabilityMessage(row)`: show the over-limit warning iff
the stored bound is truthy (non-zero) and the parsed qty exceeds it. -/
def updateAvailabilityMessage (row : RowForm) : RowForm :=
  let maxQty := dataIntOr0 row.maxQtyData
  let value := toIntOr0 row.qtyValue
  if maxQty ≠ 0 ∧ value > maxQty then
    { row with
      availabilityText := "Only " ++ toString maxQty ++ " units available from " ++
        jsOr row.productTag ("this product") ++ ".",
      availabilityHidden := false }
  else
    { row with availabilityHidden := true }

/-- One payload item produced by `gatherItems`. -/
structure OrderItem where
  product_id : String
  qty : Int
  expected_date : Option String
  notes : String
deriving Repr, DecidableEq

/-- Parsed quantity of a row: `parseInt(qtyInput.value || "0", 10) || 0`. -/
def rowQty (row : RowForm) : Int :=
  toIntOr0 row.qtyValue

/-- Stored bound of a row: `parseInt(qtyInput.dataset.maxQty || "0", 10) || 0`. -/
def rowMaxQty (row : RowForm) : Int :=
  dataIntOr0 row.maxQtyData

/-- The `rows.forEach((row, index) => ...)` body of `gatherItems`,
row by row from index `index`.  Errors and items are accumulated in
document order. -/
def gatherGo : Nat → List RowForm → List OrderItem × List String
  | _, [] => ([], [])
  | index, row :: rest =>
    let productId := strTrim row.productId
    let expected : Option String :=
      if row.expectedDate = "" then none else some row.expectedDate
    let qty := rowQty row
    let maxQty := rowMaxQty row
    let tail := gatherGo (index + 1) rest
    if productId = "" then
      if qty > 0 ∨ strTrim row.searchText ≠ "" then
        (tail.1, ("Row " ++ toString (index + 1) ++ ": select a warehouse product.") :: tail.2)
      else tail
    else if qty ≤ 0 then
      (tail.1, ("Row " ++ toString (index + 1) ++ ": quantity must be at least 1.") :: tail.2)
    else if maxQty ≠ 0 ∧ qty > maxQty then
      (tail.1,
        ("Row " ++ toString (index + 1) ++ ": requested quantity (" ++ toString qty ++
          ") exceeds available stock (" ++ toString maxQty ++ ").") :: tail.2)
    else
      ({ product_id := productId, qty := qty, expected_date := expected,
         notes := strTrim row.notes } :: tail.1, tail.2)

/-- `gatherItems(container)` over the container's rows in document
order: returns `{ items, errors }`. -/
def gatherItems (rows : List RowForm) : List OrderItem × List String :=
  gatherGo 0 rows

/-- Contents of the suggestion box after the last render (`renderMessage`
writes one muted text item, `renderSuggestions` writes buttons for a
product subset; `empty` is the pristine box). -/
inductive Render where
  | empty : Render
  | message : String → Render
  | suggestions : List Product → Render
deriving Repr, DecidableEq

/-- `renderSuggestions(items, box, options, row)`: slice to
`options.limit || DISPLAY_LIMIT`, render the message
`options.emptyMessage || "No products found."` when the slice is empty,
otherwise the slice itself. -/
def renderSuggestions (items : List Product) (limitOpt : Option Nat)
    (emptyOpt : Option String) : Render :=
  let limit :=
    match limitOpt with
    | some n => if n = 0 then DISPLAY_LIMIT else n
    | none => DISPLAY_LIMIT
  let subset := items.take limit
  if subset.isEmpty then
    Render.message
      (match emptyOpt with
       | some m => if m = "" then "No products found." else m
       | none => "No products found.")
  else Render.suggestions subset

/-- A remote search request created by `handleSearchInput`: the trimmed
query and the `String(Date.now())` token it was tagged with (kept as the
millisecond count). -/
structure Request where
  query : String
  token : Nat
deriving Repr, DecidableEq

/-- A pending `setTimeout` debounce timer: its JS handle `id`, the
closure's `query` and `requestId`, and the earliest time it may fire
(scheduling time + 220). -/
structure DebounceTimer where
  id : Nat
  query : String
  token : Nat
  fireAt : Nat
deriving Repr, DecidableEq

/-- How the remote search settles: `ok` is a 2xx response with parsed
body (`json.results`, absent as `none`); `httpError` is `!res.ok`;
`netError` is a rejected `fetch` or a failed body read. -/
inductive NetOutcome where
  | ok : Option (List Product) → NetOutcome
  | httpError : Nat → NetOutcome
  | netError : NetOutcome
deriving Repr, DecidableEq

/-- Whole state of one search input row between events.  DOM state:
`row`, `remoteRequestId` (the `dataset` slot, `none` = attribute
absent), `rendered`, the live timers and the `localTimer` handle
variable.  `prefetch` is the shared module cache.  Ghost state for the
proofs: `nowTime` (time of the last event), `nextTimerId`, `issued`
(every search request actually sent), `assigned` (every token ever
stored into `dataset.remoteRequestId`), `currentQuery` (the query text
belonging to the current `remoteRequestId`, maintained in lock-step
with it). -/
structure SearchState where
  row : RowForm
  prefetch : PrefetchState
  rendered : Render
  remoteRequestId : Option Nat
  timers : List DebounceTimer
  localTimer : Option Nat
  nowTime : Nat
  nextTimerId : Nat
  issued : List Request
  assigned : List Nat
  currentQuery : Option Request
deriving Repr, DecidableEq

/-- State of a fresh row attached to a page whose prefetch cache
currently holds `cache`. -/
def initState (cache : List Product) : SearchState :=
  { row := initRow,
    prefetch := { initPrefetch with prefetchCache := cache },
    rendered := Render.empty,
    remoteRequestId := none, timers := [], localTimer := none,
    nowTime := 0, nextTimerId := 0, issued := [], assigned := [],
    currentQuery := none }

/-- `if (localTimer) clearTimeout(localTimer)`: drop the timer whose
handle is stored in `localTimer` (a handle of an already-fired timer is
simply absent from the list, making the clear a no-op, as in JS). -/
def cancelLocalTimer (timers : List DebounceTimer) (handle : Option Nat) :
    List DebounceTimer :=
  match handle with
  | some h => timers.filter (fun tm => decide (tm.id ≠ h))
  | none => timers

/-- `hiddenInput.value = ""; qtyInput.dataset.maxQty = "";
qtyInput.removeAttribute("max")` — the immediate selection reset at the
top of `handleSearchInput`. -/
def clearSelection (row : RowForm) : RowForm :=
  { row with productId := "", maxQtyData := none, maxAttr := none }

/-- The `emptyMessage` option passed to `renderSuggestions` by
`handleSearchInput`: `query ? "No local matches" : "No products yet."`. -/
def emptyMsgFor (query : String) : String :=
  if query = "" then "No products yet." else "No local matches"

/-- `handleSearchInput()` fired at time `now` with the input's value
`raw`: trim, clear the selection, clear any pending debounce timer,
synchronously render the local filter result, and — only when the
trimmed query has at least 2 characters — store the fresh token
`String(Date.now())` in `dataset.remoteRequestId` and schedule the
remote lookup 220ms later.  (`currentQuery`/`assigned` are ghost
mirrors of the token assignment.) -/
def handleSearchInput (s : SearchState) (raw : String) (now : Nat) : SearchState :=
  if 2 ≤ (strTrim raw).length then
    { s with
      row := clearSelection { s.row with searchText := raw },
      timers := cancelLocalTimer s.timers s.localTimer ++
        [{ id := s.nextTimerId, query := strTrim raw, token := now, fireAt := now + 220 }],
      localTimer := some s.nextTimerId,
      nextTimerId := s.nextTimerId + 1,
      remoteRequestId := some now,
      currentQuery := some { query := strTrim raw, token := now },
      assigned := s.assigned ++ [now],
      nowTime := now,
      rendered := renderSuggestions
        (filterLocalProducts s.prefetch.prefetchCache (strTrim raw)) none
        (some (emptyMsgFor (strTrim raw))) }
  else
    { s with
      row := clearSelection { s.row with searchText := raw },
      timers := cancelLocalTimer s.timers s.localTimer,
      nowTime := now,
      rendered := renderSuggestions
        (filterLocalProducts s.prefetch.prefetchCache (strTrim raw)) none
        (some (emptyMsgFor (strTrim raw))) }

/-- The debounce timer with handle `id` fires at time `now`: the timer
is consumed and `fetchRemoteProducts(query, box, row, requestId)` runs
up to its `await fetch`; its `query.length < 2` guard aborts without a
request, otherwise the request goes on the wire. -/
def fireTimer (s : SearchState) (id : Nat) (now : Nat) : SearchState :=
  match s.timers.find? (fun tm => tm.id == id) with
  | none => { s with nowTime := now }
  | some tm =>
    if 2 ≤ tm.query.length then
      { s with
        timers := s.timers.filter (fun t => decide (t.id ≠ id)),
        nowTime := now,
        issued := s.issued ++ [{ query := tm.query, token := tm.token }] }
    else
      { s with
        timers := s.timers.filter (fun t => decide (t.id ≠ id)),
        nowTime := now }

/-- What the suggestion box shows after the continuation of
`fetchRemoteProducts` resumes for token `tok`: every resume point first
compares `requestId` with `row.dataset.remoteRequestId` and silently
returns on mismatch (box untouched); a current token renders the
`Search failed (status)` message on `!res.ok`, the `Search failed`
message from the `catch` on rejection, the no-results message on an
empty list, or the suggestion list. -/
def responseRender (s : SearchState) (tok : Nat) (outcome : NetOutcome) : Render :=
  if s.remoteRequestId = some tok then
    match outcome with
    | NetOutcome.httpError st =>
      Render.message ("Search failed (" ++ toString st ++ ")")
    | NetOutcome.netError => Render.message ("Search failed")
    | NetOutcome.ok res =>
      if (res.getD []).isEmpty then Render.message ("No products found")
      else renderSuggestions (res.getD []) (some DISPLAY_LIMIT) none
  else s.rendered

/-- The continuation of `fetchRemoteProducts` as a state update: it can
only repaint the suggestion box (per `responseRender`); its `try/catch`
swallows every rejection, so nothing escapes to the caller, and neither
the prefetch state nor the row fields nor the token bookkeeping are
touched. -/
def handleResponse (s : SearchState) (tok : Nat) (outcome : NetOutcome)
    (now : Nat) : SearchState :=
  { s with nowTime := now, rendered := responseRender s tok outcome }

/-- One event-loop callback touching the row: a text-change (`input`
listener), a debounce timer firing, or a network completion for a
previously issued request. -/
inductive Event where
  | input : String → Nat → Event
  | fire : Nat → Nat → Event
  | response : Nat → String → NetOutcome → Nat → Event
deriving Repr, DecidableEq

/-- Dispatch of one event. -/
def step (s : SearchState) : Event → SearchState
  | Event.input raw now => handleSearchInput s raw now
  | Event.fire id now => fireTimer s id now
  | Event.response tok _ outcome now => handleResponse s tok outcome now

/-- Environment guarantees of the JS runtime: `Date.now()` never
decreases; a timer only fires if it is still pending and its 220ms
delay has elapsed; a network completion only happens for a request that
was actually issued. -/
def validEvent (s : SearchState) : Event → Bool
  | Event.input _ now => decide (s.nowTime ≤ now)
  | Event.fire id now =>
    decide (s.nowTime ≤ now) &&
      (match s.timers.find? (fun tm => tm.id == id) with
       | some tm => decide (tm.fireAt ≤ now)
       | none => false)
  | Event.response tok q _ now =>
    decide (s.nowTime ≤ now) && decide (({ query := q, token := tok } : Request) ∈ s.issued)

/-- Run a whole event sequence. -/
def run (s : SearchState) : List Event → SearchState
  | [] => s
  | e :: es => run (step s e) es

/-- An event sequence each of whose events respects the runtime
guarantees at the state it occurs in. -/
def validTrace (s : SearchState) : List Event → Bool
  | [] => true
  | e :: es => validEvent s e && validTrace (step s e) es

/-- Inductive invariant of the states reachable by valid traces:
a pending timer is the one registered in `localTimer` and carries the
current token plus its 220ms deadline; issued requests were issued at
least 220ms after their token was minted and have queries of length at
least 2; an issued request whose token is still current is exactly the
current query; all assigned tokens are bounded by the clock. -/
structure Inv (s : SearchState) : Prop where
  handle : ∀ tm ∈ s.timers, s.localTimer = some tm.id
  timerTok : ∀ tm ∈ s.timers,
    s.remoteRequestId = some tm.token ∧
    s.currentQuery = some { query := tm.query, token := tm.token } ∧
    tm.fireAt = tm.token + 220
  issuedTime : ∀ r ∈ s.issued, r.token + 220 ≤ s.nowTime
  issuedLen : ∀ r ∈ s.issued, 2 ≤ r.query.length
  issuedCurrent : ∀ r ∈ s.issued,
    s.remoteRequestId = some r.token → s.currentQuery = some r
  assignedTime : ∀ t ∈ s.assigned, t ≤ s.nowTime

/-- A cache entry whose name is "ab" and SKU is "cd". -/
def exProduct : Product :=
  { id := none, name := some ("ab"), sku := some ("cd"), tag := none,
    qty_available := none, image_url := none }

/-- A product with 5 units available. -/
def prod5 : Product :=
  { id := some ("p5"), name := some ("Gadget"), sku := none, tag := none,
    qty_available := some 5, image_url := none }

/-- A selected row carrying a negative stored bound (producible by
`selectProduct` from a product with `qty_available = -3`). -/
def negBoundRow : RowForm :=
  { initRow with productId := "p1", qtyValue := "1", maxQtyData := some (-3) }

/-- Rows paired with their 0-based document position starting at `i`. -/
def withIndex (i : Nat) : List RowForm → List (Nat × RowForm)
  | [] => []
  | r :: rs => (i, r) :: withIndex (i + 1) rs

/-- Written from the claim's wording (C10, amended): the item a row
contributes — present exactly when the row is selected, its parsed
quantity is at least 1, and its quantity does not exceed a nonzero
stored bound; it carries the product id, parsed quantity, expected date
(or null) and trimmed notes. -/
def specItemOf (row : RowForm) : Option OrderItem :=
  if strTrim row.productId ≠ "" ∧ 1 ≤ rowQty row ∧
      (rowMaxQty row = 0 ∨ rowQty row ≤ rowMaxQty row) then
    some { product_id := strTrim row.productId, qty := rowQty row,
           expected_date :=
             if row.expectedDate = "" then none else some row.expectedDate,
           notes := strTrim row.notes }
  else none

/-- Written from the claim's wording (C10, amended): the error the row
at position `i` produces — one per row with query text or a positive
quantity but no selected product id, per selected row whose parsed
quantity is not at least 1, and per selected row whose quantity exceeds
its nonzero stored bound; rows with no product id, no query text and
non-positive quantity are silent. -/
def specErrorOf (ir : Nat × RowForm) : Option String :=
  let i := ir.1
  let row := ir.2
  let qty := rowQty row
  let bound := rowMaxQty row
  if strTrim row.productId = "" then
    if 0 < qty ∨ strTrim row.searchText ≠ "" then
      some ("Row " ++ toString (i + 1) ++ ": select a warehouse product.")
    else none
  else if ¬ 1 ≤ qty then
    some ("Row " ++ toString (i + 1) ++ ": quantity must be at least 1.")
  else if bound ≠ 0 ∧ bound < qty then
    some ("Row " ++ toString (i + 1) ++ ": requested quantity (" ++ toString qty ++
      ") exceeds available stock (" ++ toString bound ++ ").")
  else none

/-- The scan loop with its `break` collects exactly the first `fuel`
matches, in cache order. -/
theorem scanMatches_eq_filter_take (needle : String) :
    ∀ (l : List Product) (fuel : Nat), 1 ≤ fuel →
      scanMatches needle l fuel =
        (l.filter (fun p => strIncludes (combinedText p) needle)).take fuel := by
  intro l
  induction l with
  | nil => intro fuel _; simp [scanMatches]
  | cons p ps ih =>
    intro fuel hfuel
    rw [scanMatches, List.filter_cons]
    by_cases hm : strIncludes (combinedText p) needle = true
    · rw [if_pos hm, if_pos hm]
      match fuel, hfuel with
      | 1, _ => simp
      | (m + 2), _ =>
        rw [if_neg (by omega : ¬ (m + 2 ≤ 1))]
        rw [List.take_succ_cons]
        rw [ih (m + 2 - 1) (by omega)]
        norm_num
    · rw [if_neg hm, if_neg hm]
      exact ih fuel hfuel

/-- C2 (counterexample): with the cache `[{name: "ab", sku: "cd"}]` and
the query `"b c"`, `filterLocalProducts` returns the entry, yet neither
its name nor its SKU nor its tag contains `"b c"` case-insensitively:
the code matches against the space-joined concatenation of the three
fields, so a query containing a space can match across field
boundaries, which the claim as stated excludes. -/
theorem c2_cross_field_match_counterexample :
    filterLocalProducts [exProduct] ("b c") = [exProduct] ∧
    strIncludes (strLower (jsOr exProduct.name (""))) (strLower ("b c")) = false ∧
    strIncludes (strLower (jsOr exProduct.sku (""))) (strLower ("b c")) = false ∧
    strIncludes (strLower (jsOr exProduct.tag (""))) (strLower ("b c")) = false := by
  decide

/-- C2 (amended): `filter("")` returns the first `DISPLAY_LIMIT` cached
entries unfiltered in original order; for non-empty `x`, `filter(x)`
returns, in cache order and capped at `DISPLAY_LIMIT`, exactly those
entries whose space-joined lowercased `name sku tag` text contains the
lowercased `x` (substring match against the joined text, not against
each field separately); the filter is a pure function of the cache and
the query, so it has no side effects on the cache. -/
theorem c2_filter_amended (cache : List Product) (query : String) :
    filterLocalProducts cache query =
      (if query = "" then cache
       else cache.filter (fun p => strIncludes (combinedText p) (strLower query))).take
        DISPLAY_LIMIT := by
  unfold filterLocalProducts
  by_cases hc : cache.isEmpty
  · rw [List.isEmpty_iff] at hc
    subst hc
    simp
  · rw [if_neg hc]
    by_cases hq : query = ""
    · rw [if_pos hq, if_pos hq]
    · rw [if_neg hq, if_neg hq]
      exact scanMatches_eq_filter_take (strLower query) cache DISPLAY_LIMIT (by decide)

/-- Once `prefetchPromise` is non-null, further `loadPrefetch()` calls
are pure reads: no state change, and every caller gets that promise. -/
theorem loadPrefetch_noop (s : PrefetchState) (p : Nat)
    (hp : s.prefetchPromise = some p) :
    ∀ m : Nat, runLoads s m = s ∧ loadResults s m = List.replicate m p := by
  intro m
  induction m with
  | zero => simp [runLoads, loadResults]
  | succ n ih =>
    have hload : loadPrefetch s = (s, p) := by
      unfold loadPrefetch
      rw [hp]
    rw [runLoads, loadResults, hload]
    simp only
    rw [ih.1, ih.2, List.replicate_succ]
    exact ⟨rfl, rfl⟩

/-- C3: however many times `loadPrefetch()` is called (the event loop
serialises concurrent callers), exactly one request to the prefetch
endpoint is ever fetched, and every call returns the one shared promise
created by the first call. -/
theorem c3_single_prefetch_request (n : Nat) :
    (runLoads initPrefetch (n + 1)).requests = [prefetchUrl] ∧
    loadResults initPrefetch (n + 1) = List.replicate (n + 1) 0 := by
  have hfirst : loadPrefetch initPrefetch =
      ({ prefetchPromise := some 0, prefetchCache := [],
         requests := [prefetchUrl], nextPromiseId := 1 }, 0) := by
    rfl
  rw [runLoads, loadResults, hfirst]
  simp only
  have hrest := loadPrefetch_noop
    { prefetchPromise := some 0, prefetchCache := [],
      requests := [prefetchUrl], nextPromiseId := 1 } 0 rfl n
  rw [hrest.1, hrest.2, List.replicate_succ]
  exact ⟨rfl, rfl⟩

/-- C4 (counterexample): after the prefetch load fails, a further
explicit `loadPrefetch()` call does *not* retry: `prefetchPromise` is
never reset, so the second call returns the settled shared promise and
the request list still contains exactly one fetch (a retry would make
it two). -/
theorem c4_no_retry_counterexample :
    (settlePrefetch (loadPrefetch initPrefetch).1 PrefetchOutcome.netError).prefetchCache
      = [] ∧
    ((loadPrefetch (settlePrefetch (loadPrefetch initPrefetch).1
        PrefetchOutcome.netError)).1).requests = [prefetchUrl] ∧
    ¬ ((loadPrefetch (settlePrefetch (loadPrefetch initPrefetch).1
        PrefetchOutcome.netError)).1).requests = [prefetchUrl, prefetchUrl] ∧
    (loadPrefetch (settlePrefetch (loadPrefetch initPrefetch).1
        PrefetchOutcome.netError)).2 = 0 := by
  refine ⟨rfl, rfl, ?_, rfl⟩
  intro h
  have h2 : ([prefetchUrl] : List String) = [prefetchUrl, prefetchUrl] := h
  simp at h2

/-- C4 (amended): when the prefetch load fails (fetch rejects or
non-success status), the error is swallowed by the `catch` and the
cache is left empty; but the failure is *never* retried: any number of
subsequent explicit `loadPrefetch()` calls return the settled shared
promise unchanged, so the single original request remains the only one
ever issued. -/
theorem c4_failure_swallowed_amended (st : Nat) (m : Nat) :
    (settlePrefetch (loadPrefetch initPrefetch).1 PrefetchOutcome.netError).prefetchCache
      = [] ∧
    (settlePrefetch (loadPrefetch initPrefetch).1 (PrefetchOutcome.httpError st)).prefetchCache
      = [] ∧
    (runLoads (settlePrefetch (loadPrefetch initPrefetch).1 PrefetchOutcome.netError) m).requests
      = [prefetchUrl] ∧
    loadResults (settlePrefetch (loadPrefetch initPrefetch).1 PrefetchOutcome.netError) m
      = List.replicate m 0 := by
  have h := loadPrefetch_noop
    (settlePrefetch (loadPrefetch initPrefetch).1 PrefetchOutcome.netError) 0 rfl m
  refine ⟨rfl, rfl, ?_, h.2⟩
  rw [h.1]
  rfl


/-- C5: on explicit selection the quantity bound is derived from the
product's available-quantity — 0 or absent leaves the bound removed
(`dataset.maxQty` cleared and no `max` attribute), any other value is
stored as the bound; selecting a product with 5 available sets the
bound to 5, entering quantity 6 shows the over-limit message, and
entering quantity 5 hides it. -/
theorem c5_quantity_bound (row : RowForm) (p : Product) :
    ((selectProduct row p).maxQtyData =
      match p.qty_available with
      | none => none
      | some q => if q = 0 then none else some q) ∧
    ((selectProduct row p).maxAttr =
      match p.qty_available with
      | none => none
      | some q => if q = 0 then none else some q) ∧
    (selectProduct row prod5).maxQtyData = some 5 ∧
    (updateAvailabilityMessage
      { selectProduct row prod5 with qtyValue := "6" }).availabilityHidden = false ∧
    (updateAvailabilityMessage
      { selectProduct row prod5 with qtyValue := "5" }).availabilityHidden = true := by
  have h6 : toIntOr0 ("6") = 6 := rfl
  have h5 : toIntOr0 ("5") = 5 := rfl
  refine ⟨?_, ?_, ?_, ?_, ?_⟩
  · unfold selectProduct
    cases p.qty_available with
    | none => simp
    | some q => by_cases hq : q = 0 <;> simp [hq]
  · unfold selectProduct
    cases p.qty_available with
    | none => simp
    | some q => by_cases hq : q = 0 <;> simp [hq]
  · simp [selectProduct, prod5]
  · simp [selectProduct, prod5, updateAvailabilityMessage, dataIntOr0, rowQty, h6]
  · simp [selectProduct, prod5, updateAvailabilityMessage, dataIntOr0, rowQty, h5]

/-- C6: a remote-search failure (rejected fetch or non-success status)
whose token is still current repaints the suggestion box with the
corresponding error placeholder, a stale one leaves the box untouched,
and no response — of any outcome — alters the prefetch state, the row's
fields, the issued-request log or the token. (The model's response
handler is a total function: the `try/catch` means no exception reaches
the coordinator's caller.) -/
theorem c6_failure_rendering (s : SearchState) (tok : Nat) (q : String)
    (st : Nat) (now : Nat) (o : NetOutcome) :
    (step s (Event.response tok q (NetOutcome.httpError st) now)).rendered =
      (if s.remoteRequestId = some tok
       then Render.message ("Search failed (" ++ toString st ++ ")")
       else s.rendered) ∧
    (step s (Event.response tok q NetOutcome.netError now)).rendered =
      (if s.remoteRequestId = some tok
       then Render.message ("Search failed")
       else s.rendered) ∧
    (step s (Event.response tok q o now)).prefetch = s.prefetch ∧
    (step s (Event.response tok q o now)).row = s.row ∧
    (step s (Event.response tok q o now)).issued = s.issued ∧
    (step s (Event.response tok q o now)).remoteRequestId = s.remoteRequestId := by
  refine ⟨?_, ?_, rfl, rfl, rfl, rfl⟩
  · by_cases h : s.remoteRequestId = some tok <;>
      simp [step, handleResponse, responseRender, h]
  · by_cases h : s.remoteRequestId = some tok <;>
      simp [step, handleResponse, responseRender, h]

/-- C7: every text-change event clears the prior selection and its
quantity bound — the handler's final row state is exactly the cleared
row (product id empty, `dataset.maxQty` and the `max` attribute
removed), and the suggestion list it renders is computed from the cache
and the new query alone, independent of the old selection. -/
theorem c7_text_change_clears_selection (s : SearchState) (raw : String) (now : Nat) :
    (step s (Event.input raw now)).row =
      clearSelection { s.row with searchText := raw } ∧
    (step s (Event.input raw now)).row.productId = "" ∧
    (step s (Event.input raw now)).row.maxQtyData = none ∧
    (step s (Event.input raw now)).row.maxAttr = none ∧
    (step s (Event.input raw now)).rendered =
      renderSuggestions (filterLocalProducts s.prefetch.prefetchCache (strTrim raw))
        none (some (emptyMsgFor (strTrim raw))) := by
  unfold step handleSearchInput
  by_cases h : 2 ≤ (strTrim raw).length <;> simp [h, clearSelection]

/-- C10 (counterexample): a selected row with quantity 1 and stored
bound -3 (reachable via `selectProduct` on a product with negative
availability) produces an error and no item, although the claim —
which makes the over-limit error conditional on a *positive* bound —
classifies it as contributing an item. -/
theorem c10_negative_bound_counterexample :
    gatherItems [negBoundRow] =
      ([], ["Row 1: requested quantity (1) exceeds available stock (-3)."]) ∧
    rowMaxQty negBoundRow = -3 ∧
    ¬ 0 < rowMaxQty negBoundRow ∧
    1 ≤ rowQty negBoundRow ∧
    strTrim negBoundRow.productId ≠ "" := by
  decide

/-- A row with no selected product contributes no item. -/
theorem specItemOf_none_of_unselected (row : RowForm)
    (h : strTrim row.productId = "") : specItemOf row = none := by
  unfold specItemOf
  rw [if_neg]
  intro hc
  exact hc.1 h

/-- The row-by-row loop of `gatherItems` agrees with the claim-side
per-row classification at every starting index. -/
theorem gatherGo_eq_spec :
    ∀ (rows : List RowForm) (i : Nat),
      gatherGo i rows =
        (rows.filterMap specItemOf, (withIndex i rows).filterMap specErrorOf) := by
  intro rows
  induction rows with
  | nil => intro i; simp [gatherGo, withIndex]
  | cons row rest ih =>
    intro i
    rw [gatherGo, withIndex]
    simp only [List.filterMap_cons, ih]
    by_cases h1 : strTrim row.productId = ""
    · rw [if_pos h1]
      have hi := specItemOf_none_of_unselected row h1
      by_cases h2 : rowQty row > 0 ∨ strTrim row.searchText ≠ ""
      · rw [if_pos h2]
        have he : specErrorOf (i, row) =
            some ("Row " ++ toString (i + 1) ++ ": select a warehouse product.") := by
          unfold specErrorOf
          simp only
          rw [if_pos h1, if_pos h2]
        rw [hi, he]
      · rw [if_neg h2]
        have he : specErrorOf (i, row) = none := by
          unfold specErrorOf
          simp only
          rw [if_pos h1, if_neg h2]
        rw [hi, he]
    · rw [if_neg h1]
      by_cases h3 : rowQty row ≤ 0
      · rw [if_pos h3]
        have hi' : specItemOf row = none := by
          unfold specItemOf
          rw [if_neg]
          intro hc
          omega
        have he : specErrorOf (i, row) =
            some ("Row " ++ toString (i + 1) ++ ": quantity must be at least 1.") := by
          unfold specErrorOf
          simp only
          rw [if_neg h1, if_pos (by omega : ¬ 1 ≤ rowQty row)]
        rw [hi', he]
      · by_cases h4 : rowMaxQty row ≠ 0 ∧ rowQty row > rowMaxQty row
        · rw [if_neg h3, if_pos h4]
          have hi' : specItemOf row = none := by
            unfold specItemOf
            rw [if_neg]
            intro hc
            rcases hc.2.2 with h | h
            · exact h4.1 h
            · omega
          have he : specErrorOf (i, row) =
              some ("Row " ++ toString (i + 1) ++ ": requested quantity (" ++
                toString (rowQty row) ++ ") exceeds available stock (" ++
                toString (rowMaxQty row) ++ ").") := by
            unfold specErrorOf
            simp only
            rw [if_neg h1, if_neg (by omega : ¬ ¬ 1 ≤ rowQty row),
              if_pos (⟨h4.1, by omega⟩ : rowMaxQty row ≠ 0 ∧ rowMaxQty row < rowQty row)]
          rw [hi', he]
        · rw [if_neg h3, if_neg h4]
          have hi' : specItemOf row =
              some { product_id := strTrim row.productId, qty := rowQty row,
                     expected_date :=
                       if row.expectedDate = "" then none else some row.expectedDate,
                     notes := strTrim row.notes } := by
            unfold specItemOf
            rw [if_pos]
            refine ⟨h1, by omega, ?_⟩
            rcases not_and_or.mp h4 with h | h
            · exact Or.inl (not_not.mp h)
            · exact Or.inr (by omega)
          have he : specErrorOf (i, row) = none := by
            unfold specErrorOf
            simp only
            rw [if_neg h1, if_neg (by omega : ¬ ¬ 1 ≤ rowQty row), if_neg]
            intro hc
            rcases not_and_or.mp h4 with h | h
            · exact h (hc.1)
            · omega
          rw [hi', he]

/-- C10 (amended): `gatherItems` returns an error (and no item) for
each row with query text or positive quantity but no selected product
id, for each selected row whose parsed quantity is not at least 1, and
for each selected row whose quantity exceeds its *nonzero* stored
max-quantity bound; every other selected row contributes exactly one
item with its product id, parsed quantity, expected date (or null) and
trimmed notes, in document row order; rows with no product id, no query
text and non-positive quantity are skipped silently. -/
theorem c10_gather_characterization (rows : List RowForm) :
    gatherItems rows =
      (rows.filterMap specItemOf, (withIndex 0 rows).filterMap specErrorOf) :=
  gatherGo_eq_spec rows 0

/-- Under the invariant, `clearTimeout(localTimer)` empties the timer
list: every pending timer is the one registered in `localTimer`. -/
theorem cancelLocalTimer_eq_nil (s : SearchState)
    (h : ∀ tm ∈ s.timers, s.localTimer = some tm.id) :
    cancelLocalTimer s.timers s.localTimer = [] := by
  unfold cancelLocalTimer
  cases hl : s.localTimer with
  | none =>
    cases ht : s.timers with
    | nil => rfl
    | cons tm rest =>
      have hm := h tm (by rw [ht]; exact List.mem_cons_self tm rest)
      rw [hl] at hm
      cases hm
  | some hdl =>
    rw [List.filter_eq_nil_iff]
    intro tm hm
    have hh := h tm hm
    rw [hl] at hh
    have hid : tm.id = hdl := by
      injection hh with hh2
      omega
    simp [hid]

/-- A text-change event preserves the invariant. -/
theorem inv_input (s : SearchState) (raw : String) (now : Nat)
    (hnow : s.nowTime ≤ now) (hs : Inv s) : Inv (handleSearchInput s raw now) := by
  have hcancel := cancelLocalTimer_eq_nil s hs.handle
  unfold handleSearchInput
  by_cases h2 : 2 ≤ (strTrim raw).length
  · rw [if_pos h2]
    refine ⟨?_, ?_, ?_, ?_, ?_, ?_⟩
    · intro tm hmem
      simp only [hcancel, List.nil_append, List.mem_singleton] at hmem
      simp [hmem]
    · intro tm hmem
      simp only [hcancel, List.nil_append, List.mem_singleton] at hmem
      subst hmem
      exact ⟨rfl, rfl, rfl⟩
    · intro r hr
      simp only at hr ⊢
      exact le_trans (hs.issuedTime r hr) hnow
    · intro r hr
      exact hs.issuedLen r hr
    · intro r hr heq
      simp only [Option.some.injEq] at heq
      have := hs.issuedTime r hr
      omega
    · intro t ht
      simp only [List.mem_append, List.mem_singleton] at ht
      rcases ht with ht | ht
      · exact le_trans (hs.assignedTime t ht) hnow
      · show t ≤ now
        omega
  · rw [if_neg h2]
    refine ⟨?_, ?_, ?_, ?_, ?_, ?_⟩
    · intro tm hmem
      simp only [hcancel] at hmem
      cases hmem
    · intro tm hmem
      simp only [hcancel] at hmem
      cases hmem
    · intro r hr
      exact le_trans (hs.issuedTime r hr) hnow
    · intro r hr
      exact hs.issuedLen r hr
    · intro r hr heq
      exact hs.issuedCurrent r hr heq
    · intro t ht
      exact le_trans (hs.assignedTime t ht) hnow

/-- A valid timer firing preserves the invariant. -/
theorem inv_fire (s : SearchState) (id now : Nat)
    (hv : validEvent s (Event.fire id now) = true) (hs : Inv s) :
    Inv (fireTimer s id now) := by
  unfold validEvent at hv
  rw [Bool.and_eq_true] at hv
  have hnow : s.nowTime ≤ now := of_decide_eq_true hv.1
  unfold fireTimer
  cases hfind : s.timers.find? (fun tm => tm.id == id) with
  | none =>
    rw [hfind] at hv
    cases hv.2
  | some tm =>
    rw [hfind] at hv
    have hfire : tm.fireAt ≤ now := of_decide_eq_true hv.2
    have htm : tm ∈ s.timers := List.mem_of_find?_eq_some hfind
    have htok := hs.timerTok tm htm
    dsimp only
    by_cases hlen : 2 ≤ tm.query.length
    · rw [if_pos hlen]
      refine ⟨?_, ?_, ?_, ?_, ?_, ?_⟩
      · intro t hmem
        rw [List.mem_filter] at hmem
        exact hs.handle t hmem.1
      · intro t hmem
        rw [List.mem_filter] at hmem
        exact hs.timerTok t hmem.1
      · intro r hr
        simp only [List.mem_append, List.mem_singleton] at hr
        rcases hr with hr | hr
        · exact le_trans (hs.issuedTime r hr) hnow
        · subst hr
          show tm.token + 220 ≤ now
          omega
      · intro r hr
        simp only [List.mem_append, List.mem_singleton] at hr
        rcases hr with hr | hr
        · exact hs.issuedLen r hr
        · subst hr
          exact hlen
      · intro r hr heq
        simp only [List.mem_append, List.mem_singleton] at hr
        rcases hr with hr | hr
        · exact hs.issuedCurrent r hr heq
        · subst hr
          exact htok.2.1
      · intro t ht
        exact le_trans (hs.assignedTime t ht) hnow
    · rw [if_neg hlen]
      refine ⟨?_, ?_, ?_, ?_, ?_, ?_⟩
      · intro t hmem
        rw [List.mem_filter] at hmem
        exact hs.handle t hmem.1
      · intro t hmem
        rw [List.mem_filter] at hmem
        exact hs.timerTok t hmem.1
      · intro r hr
        exact le_trans (hs.issuedTime r hr) hnow
      · intro r hr
        exact hs.issuedLen r hr
      · intro r hr heq
        exact hs.issuedCurrent r hr heq
      · intro t ht
        exact le_trans (hs.assignedTime t ht) hnow

/-- A network completion preserves the invariant. -/
theorem inv_response (s : SearchState) (tok : Nat) (outcome : NetOutcome)
    (now : Nat) (hnow : s.nowTime ≤ now) (hs : Inv s) :
    Inv (handleResponse s tok outcome now) := by
  unfold handleResponse
  refine ⟨?_, ?_, ?_, ?_, ?_, ?_⟩
  · intro tm hmem
    exact hs.handle tm hmem
  · intro tm hmem
    exact hs.timerTok tm hmem
  · intro r hr
    exact le_trans (hs.issuedTime r hr) hnow
  · intro r hr
    exact hs.issuedLen r hr
  · intro r hr heq
    exact hs.issuedCurrent r hr heq
  · intro t ht
    exact le_trans (hs.assignedTime t ht) hnow

/-- Every valid event preserves the invariant. -/
theorem inv_step (s : SearchState) (e : Event)
    (hv : validEvent s e = true) (hs : Inv s) : Inv (step s e) := by
  cases e with
  | input raw now =>
    unfold validEvent at hv
    exact inv_input s raw now (of_decide_eq_true hv) hs
  | fire id now => exact inv_fire s id now hv hs
  | response tok q outcome now =>
    unfold validEvent at hv
    rw [Bool.and_eq_true] at hv
    exact inv_response s tok outcome now (of_decide_eq_true hv.1) hs

/-- A fresh row satisfies the invariant. -/
theorem inv_init (cache : List Product) : Inv (initState cache) := by
  refine ⟨?_, ?_, ?_, ?_, ?_, ?_⟩ <;> intro x hx <;> cases hx

/-- The invariant holds after any valid trace. -/
theorem inv_run :
    ∀ (tr : List Event) (s : SearchState),
      validTrace s tr = true → Inv s → Inv (run s tr) := by
  intro tr
  induction tr with
  | nil => intro s _ hs; exact hs
  | cons e es ih =>
    intro s hv hs
    rw [validTrace, Bool.and_eq_true] at hv
    rw [run]
    exact ih (step s e) hv.2 (inv_step s e hv.1 hs)


/-- C1: after any valid sequence of text-change and network-completion
events, a remote response whose token differs from the row's current
`dataset.remoteRequestId` leaves the suggestion box untouched
(discarded without rendering); and any issued request whose token still
matches the current one *is* the current query — the one created by the
most recent text-change that scheduled a remote lookup — so only the
most recent query's remote result can ever be rendered; in particular a
response of a query q1 superseded by a later remote-issuing query q2
fails the token check and is discarded. -/
theorem c1_stale_remote_responses_never_render (cache : List Product)
    (tr : List Event) (htr : validTrace (initState cache) tr = true)
    (r : Request) (hr : r ∈ (run (initState cache) tr).issued)
    (outcome : NetOutcome) (now : Nat) :
    ((run (initState cache) tr).remoteRequestId ≠ some r.token →
      (step (run (initState cache) tr)
        (Event.response r.token r.query outcome now)).rendered =
        (run (initState cache) tr).rendered) ∧
    ((run (initState cache) tr).remoteRequestId = some r.token →
      (run (initState cache) tr).currentQuery = some r) := by
  have hinv := inv_run tr (initState cache) htr (inv_init cache)
  constructor
  · intro hne
    show responseRender (run (initState cache) tr) r.token outcome =
      (run (initState cache) tr).rendered
    unfold responseRender
    rw [if_neg hne]
  · intro heq
    exact hinv.issuedCurrent r hr heq

/-- Witness for C1: the concrete trace types "ab", lets its debounce
fire, types "cd"; "ab"'s late response is discarded. -/
theorem c1_witness :
    validTrace (initState [])
      [Event.input ("ab") 0, Event.fire 0 220, Event.input ("cd") 250] = true ∧
    ({ query := "ab", token := 0 } : Request) ∈
      (run (initState [])
        [Event.input ("ab") 0, Event.fire 0 220, Event.input ("cd") 250]).issued ∧
    (step (run (initState [])
        [Event.input ("ab") 0, Event.fire 0 220, Event.input ("cd") 250])
      (Event.response 0 ("ab") NetOutcome.netError 260)).rendered =
      (run (initState [])
        [Event.input ("ab") 0, Event.fire 0 220, Event.input ("cd") 250]).rendered :=
  ⟨by decide, by decide,
    (c1_stale_remote_responses_never_render []
      [Event.input ("ab") 0, Event.fire 0 220, Event.input ("cd") 250] (by decide)
      { query := "ab", token := 0 } (by decide) NetOutcome.netError 260).1 (by decide)⟩

/-- C9: in any valid event sequence, every remote search request ever
issued carries a (trimmed) query of length at least 2 — queries of
length 0 or 1 never reach the network (guarded both in
`handleSearchInput` and in `fetchRemoteProducts`). -/
theorem c9_short_queries_never_fetched (cache : List Product)
    (tr : List Event) (htr : validTrace (initState cache) tr = true) :
    ∀ r ∈ (run (initState cache) tr).issued, 2 ≤ r.query.length :=
  (inv_run tr (initState cache) htr (inv_init cache)).issuedLen

/-- Witness for C9 on a concrete two-event trace. -/
theorem c9_witness :
    validTrace (initState []) [Event.input ("xy") 5, Event.fire 0 225] = true ∧
    ∀ r ∈ (run (initState []) [Event.input ("xy") 5, Event.fire 0 225]).issued,
      2 ≤ r.query.length :=
  ⟨by decide,
    c9_short_queries_never_fetched [] [Event.input ("xy") 5, Event.fire 0 225] (by decide)⟩

/-- C8 (counterexample): two text-change events in the same
millisecond — `String(Date.now())` is only non-decreasing — assign the
*same* token 100 twice, so the second event's token is not strictly
greater than every previously assigned token. -/
theorem c8_token_not_strictly_increasing :
    validTrace (initState []) [Event.input ("ab") 100, Event.input ("ac") 100] = true ∧
    (run (initState []) [Event.input ("ab") 100]).assigned = [100] ∧
    (run (initState [])
      [Event.input ("ab") 100, Event.input ("ac") 100]).remoteRequestId = some 100 ∧
    (run (initState []) [Event.input ("ab") 100, Event.input ("ac") 100]).assigned
      = [100, 100] ∧
    ¬ (100 < 100) := by
  exact ⟨by decide, by decide, by decide, by decide, by omega⟩

/-- C8 (amended): each text-change event with trimmed query length at
least 2 assigns a token greater than *or equal to* every token
previously assigned to the instance (strictly greater whenever the
clock advanced since the last event), cancels any pending debounce
timer, and schedules exactly one new remote lookup 220ms later tagged
with the new token — so at most one pending debounce timer exists per
instance at any time. -/
theorem c8_token_monotone_amended (cache : List Product) (tr : List Event)
    (htr : validTrace (initState cache) tr = true) (raw : String) (now : Nat)
    (hnow : (run (initState cache) tr).nowTime ≤ now)
    (hq : 2 ≤ (strTrim raw).length) :
    (∀ t ∈ (run (initState cache) tr).assigned, t ≤ now) ∧
    (∀ t ∈ (run (initState cache) tr).assigned,
      (run (initState cache) tr).nowTime < now → t < now) ∧
    (step (run (initState cache) tr) (Event.input raw now)).remoteRequestId
      = some now ∧
    (step (run (initState cache) tr) (Event.input raw now)).assigned =
      (run (initState cache) tr).assigned ++ [now] ∧
    (step (run (initState cache) tr) (Event.input raw now)).timers =
      [{ id := (run (initState cache) tr).nextTimerId, query := strTrim raw,
         token := now, fireAt := now + 220 }] := by
  have hinv := inv_run tr (initState cache) htr (inv_init cache)
  have hcancel := cancelLocalTimer_eq_nil (run (initState cache) tr) hinv.handle
  refine ⟨?_, ?_, ?_, ?_, ?_⟩
  · intro t ht
    exact le_trans (hinv.assignedTime t ht) hnow
  · intro t ht hlt
    exact lt_of_le_of_lt (hinv.assignedTime t ht) hlt
  · show (handleSearchInput _ raw now).remoteRequestId = some now
    unfold handleSearchInput
    rw [if_pos hq]
  · show (handleSearchInput _ raw now).assigned = _
    unfold handleSearchInput
    rw [if_pos hq]
  · show (handleSearchInput _ raw now).timers = _
    unfold handleSearchInput
    rw [if_pos hq]
    show cancelLocalTimer _ _ ++ _ = _
    rw [hcancel]
    rfl

/-- Witness for C8 (amended) on a concrete one-event trace. -/
theorem c8_witness :
    validTrace (initState []) [Event.input ("pq") 0] = true ∧
    (run (initState []) [Event.input ("pq") 0]).nowTime ≤ 300 ∧
    2 ≤ (strTrim ("pr")).length ∧
    ((∀ t ∈ (run (initState []) [Event.input ("pq") 0]).assigned, t ≤ 300) ∧
     (∀ t ∈ (run (initState []) [Event.input ("pq") 0]).assigned,
       (run (initState []) [Event.input ("pq") 0]).nowTime < 300 → t < 300) ∧
     (step (run (initState []) [Event.input ("pq") 0])
        (Event.input ("pr") 300)).remoteRequestId = some 300 ∧
     (step (run (initState []) [Event.input ("pq") 0])
        (Event.input ("pr") 300)).assigned =
       (run (initState []) [Event.input ("pq") 0]).assigned ++ [300] ∧
     (step (run (initState []) [Event.input ("pq") 0])
        (Event.input ("pr") 300)).timers =
       [{ id := (run (initState []) [Event.input ("pq") 0]).nextTimerId,
          query := strTrim ("pr"), token := 300, fireAt := 300 + 220 }]) :=
  ⟨by decide, by decide, by decide,
    c8_token_monotone_amended [] [Event.input ("pq") 0] (by decide) ("pr") 300
      (by decide) (by decide)⟩

end SmartLiving
